import Mathlib

/-!
Shallow embedding of `src/buckaroo_mcp_tool.py` (the Buckaroo MCP tool's
server-lifecycle supervisor).  Python functions become pure Lean functions;
all effects (HTTP probes, `os.kill`, `time.sleep`, `subprocess.Popen`) are
made explicit: the environment supplies the outcome of each effectful call
and the functions return, next to their Python return value, the list of
effectful actions they performed, in order.  Machine-level details that the
claims never touch are modelled as documented at each definition
(float seconds become integer milliseconds; the JSON parse outcome of an
HTTP body is supplied by the environment, since the `json` library is
external to the repository).
-/

namespace BuckarooMCP

/-- POSIX signals used by the tool (`signal.SIGTERM`, `signal.SIGKILL`,
`signal.SIGINT`). -/
inductive Sig where
  | SIGTERM
  | SIGKILL
  | SIGINT
deriving DecidableEq

/-- One entry of the `static_files` map of a health response:
`{exists, size_bytes}` (fields may be absent). -/
structure StaticInfo where
  fileExists : Option Bool
  size_bytes : Option Int
deriving DecidableEq

/-- A parsed JSON health-response dict.  Each known key is `none` when the
key is absent from the dict; `otherKeys` lists the names of any further keys
so that Python dict truthiness (non-emptiness) is representable.  JSON null
values are not modelled (no claim depends on them). `uptime_s` is a float in
Python; it is modelled as an integer because the code only passes it
through. -/
structure HealthDict where
  status : Option String := none
  pid : Option Int := none
  uptime_s : Option Int := none
  version : Option String := none
  static_files : Option (List (String × StaticInfo)) := none
  otherKeys : List String := []
deriving DecidableEq

/-- Python truthiness of the dict: `if health:` is true iff the dict is
non-empty. -/
def HealthDict.truthy (d : HealthDict) : Bool :=
  d.status.isSome || d.pid.isSome || d.uptime_s.isSome || d.version.isSome ||
    d.static_files.isSome || !d.otherKeys.isEmpty

/-- The body of an HTTP response, as seen through `json.loads`: either it
parses to a dict or it is malformed (in which case `json.loads` raises
`json.JSONDecodeError`, a subclass of `ValueError`). -/
inductive JsonBody where
  | valid (d : HealthDict)
  | malformed
deriving DecidableEq

/-- The outcome of `urlopen(url, timeout=...)` followed by `resp.read()`:
`urlError` covers `URLError` (including `HTTPError`, which `urlopen` raises
for non-2xx statuses, and timeouts), `osError` covers plain `OSError`;
otherwise a response with an HTTP status and a body is available.  A 2xx
status other than 200 (e.g. 204) arrives as `response status body` with
`status ≠ 200`. -/
inductive HttpOutcome where
  | urlError
  | osError
  | response (status : Nat) (body : JsonBody)
deriving DecidableEq

/-- Result of `_health_check()`: either it returns a value
(`some dict` or `None`) or it raises `json.JSONDecodeError` — the
`except (URLError, OSError)` clause does not catch `ValueError`. -/
inductive HCResult where
  | ret (h : Option HealthDict)
  | jsonError
deriving DecidableEq

/-- `_health_check` (buckaroo_mcp_tool.py lines 125–135): GET `/health`
with a 2s timeout; on a 200 response parse the body with `json.loads` and
return the dict; `URLError`/`OSError` are caught and yield `None`; a non-200
status falls through to `return None`.  A `json.loads` failure is *not*
caught. -/
def health_check (o : HttpOutcome) : HCResult :=
  match o with
  | .urlError => .ret none
  | .osError => .ret none
  | .response status body =>
    if status = 200 then
      match body with
      | .valid d => .ret (some d)
      | .malformed => .jsonError
    else
      .ret none

/-- Decimal-digit value of a character, as used by `int(...)` on a digit. -/
def digitVal (c : Char) : Option Nat :=
  if c.isDigit then some (c.toNat - 48) else none

/-- Python `int(s)` restricted to strings of decimal digits (the only shape
the module ever feeds it: the `BUCKAROO_PORT` value or the default
`"8700"`); `none` models the `ValueError` raised on a non-numeric string. -/
def pyInt (s : String) : Option Nat :=
  if s.data.isEmpty then none
  else s.data.foldl (fun acc c =>
    match acc, digitVal c with
    | some n, some d => some (n * 10 + d)
    | _, _ => none) (some 0)

/-- `SERVER_PORT = int(os.environ.get("BUCKAROO_PORT", "8700"))`
(line 30): the port is read from the environment variable, defaulting to
8700. -/
def SERVER_PORT (envBuckarooPort : Option String) : Option Nat :=
  pyInt (envBuckarooPort.getD "8700")

/-- `SERVER_URL = f"http://localhost:{SERVER_PORT}"` (line 31). -/
def SERVER_URL (port : Nat) : String :=
  "http://localhost:" ++ toString port

/-- The URL targeted by every `_health_check` call (line 128). -/
def healthURL (port : Nat) : String :=
  SERVER_URL port ++ "/health"

/-- The URL targeted by the `/load` request of `_view_impl` (line 271). -/
def loadURL (port : Nat) : String :=
  SERVER_URL port ++ "/load"

/-- The request built by `_view_impl` for POST `/load`
(lines 270–274): url, JSON payload, content type. -/
structure HttpRequest where
  url : String
  body : String
  contentType : String
deriving DecidableEq

/-- The `Request(f"{SERVER_URL}/load", data=payload, headers=...)` of
`_view_impl`; the payload string is taken as given (built by `json.dumps`,
which is external). -/
def load_request (port : Nat) (payload : String) : HttpRequest :=
  { url := SERVER_URL port ++ "/load"
    body := payload
    contentType := "application/json" }

/-- `cmd = [sys.executable, "-m", "buckaroo.server"]` (line 224): the
launch command for the backing service. -/
def launchCmd (pythonExe : String) : List String :=
  [pythonExe, "-m", "buckaroo.server"]

/-- Static configuration of the module: the Python interpreter path
(`sys.executable`) and the configured port (`SERVER_PORT`). -/
structure Config where
  pythonExe : String
  port : Nat
deriving DecidableEq

/-- Inputs of the diagnostic message that are read from the host
environment: the short Python version (`sys.version.split()[0]`), the log
directory (`LOG_DIR`), the MCP log file path (`LOG_FILE`), and the lines of
`LOG_DIR/server.log` (`none` when the file is missing or unreadable). -/
structure Diag where
  pyVersionShort : String
  logDir : String
  mcpLogFile : String
  serverLogLines : Option (List String)

/-- `_read_server_log_tail(n)` (lines 149–159): the concatenation of the
last `n` lines of the server log (lines keep their newlines, as returned by
`readlines()`), or a placeholder when the file is absent or unreadable.
Requires `n > 0` (matching the only call site, `n = 20`; Python's
`lines[-n:]` differs at `n = 0`). -/
def read_server_log_tail (file : Option (List String)) (n : Nat) : String :=
  match file with
  | some lines => String.join (lines.drop (lines.length - n))
  | none => "(server log not found)"

/-- `_format_startup_failure()` (lines 162–183): the detailed error message
raised when the server fails to start, built exactly as the Python f-string
concatenation (with `server_log = os.path.join(LOG_DIR, "server.log")`,
modelled with a POSIX separator). -/
def format_startup_failure (cfg : Config) (diag : Diag) : String :=
  "Buckaroo data server failed to start.\n\n" ++
  "## Diagnostic info\n" ++
  "- Python: " ++ cfg.pythonExe ++ " (" ++ diag.pyVersionShort ++ ")\n" ++
  "- Server URL: " ++ SERVER_URL cfg.port ++ "\n" ++
  "- Log dir: " ++ diag.logDir ++ "\n\n" ++
  "## Server log (last 20 lines)\n```\n" ++
    read_server_log_tail diag.serverLogLines 20 ++ "\n```\n\n" ++
  "## What to check\n" ++
  "1. Is port " ++ toString cfg.port ++ " already in use? " ++
    "(`lsof -i :" ++ toString cfg.port ++ "`)\n" ++
  "2. Check the full server log: `cat " ++ (diag.logDir ++ "/server.log") ++ "`\n" ++
  "3. Check the MCP tool log: `cat " ++ diag.mcpLogFile ++ "`\n" ++
  "4. Try starting the server manually: `" ++ cfg.pythonExe ++
    " -m buckaroo.server --no-browser --port " ++ toString cfg.port ++ "`\n"

/-- `hay` contains `needle` as a substring. -/
def strContains (hay needle : String) : Prop :=
  ∃ a b, hay = a ++ needle ++ b

/-- The effectful actions `ensure_server` can perform, in program order.
`probe url` is a `_health_check()` call (GET `url`); `kill pid sig` is an
attempted `os.kill(pid, sig)` (the environment decides whether it raises
`OSError`); `sleep ms` is `time.sleep` of that many milliseconds;
`popen cmd` is the `subprocess.Popen` of the backing server; `spawnMonitor
serverPid` is the `_start_server_monitor(serverPid)` call. -/
inductive Act where
  | probe (url : String)
  | kill (pid : Int) (s : Sig)
  | sleep (ms : Nat)
  | popen (cmd : List String)
  | spawnMonitor (serverPid : Int)
deriving DecidableEq

/-- Environment of one `ensure_server()` invocation: `http n` is the raw
HTTP outcome of the n-th `_health_check` performed during this invocation
(counting from 0); `killOk pid sig` tells whether `os.kill(pid, sig)`
succeeds (`false` = raises `OSError`); `newPid` is the pid of the process
created by `subprocess.Popen`. -/
structure Env where
  http : Nat → HttpOutcome
  killOk : Int → Sig → Bool
  newPid : Int

/-- The value `ensure_server` returns: the dict
`{"server_status": ..., "server_pid": ..., "server_uptime_s": ...}`. -/
structure EnsureResult where
  server_status : String
  server_pid : Option Int
  server_uptime_s : Int
deriving DecidableEq

/-- How an `ensure_server()` call ends: a returned dict, a propagated
`json.JSONDecodeError` from a health check, or the
`RuntimeError(_format_startup_failure())` raised on startup timeout. -/
inductive EnsureOutcome where
  | ok (r : EnsureResult)
  | jsonError
  | startupError (msg : String)
deriving DecidableEq

/-- The retry loop of `ensure_server` (lines 232–249):
`for i in range(fuel): time.sleep(0.25); health = _health_check(); ...`.
`k` is the index of the next `_health_check` in `env.http`.  On a truthy
health dict it returns the `"started"` dict; after `fuel` failed polls it
raises `RuntimeError(failMsg)` (lines 251–252).  The warning about missing
static files (lines 238–244) only logs and is not an effect tracked here. -/
def poll_loop (cfg : Config) (env : Env) (k : Nat) (fuel : Nat)
    (failMsg : String) : EnsureOutcome × List Act :=
  match fuel with
  | 0 => (.startupError failMsg, [])
  | fuel' + 1 =>
    let pre := [Act.sleep 250, Act.probe (healthURL cfg.port)]
    match health_check (env.http k) with
    | .jsonError => (.jsonError, pre)
    | .ret none =>
      let r := poll_loop cfg env (k + 1) fuel' failMsg
      (r.1, pre ++ r.2)
    | .ret (some d) =>
      if d.truthy then
        (.ok { server_status := "started", server_pid := d.pid,
               server_uptime_s := d.uptime_s.getD 0 }, pre)
      else
        let r := poll_loop cfg env (k + 1) fuel' failMsg
        (r.1, pre ++ r.2)

/-- Lines 223–252 of `ensure_server`: `subprocess.Popen` of the launch
command (stdout/stderr to the server log), `_start_server_monitor` on the
new pid, then the 20-iteration poll loop.  `k` is the index of the next
`_health_check`. -/
def launch_and_wait (cfg : Config) (diag : Diag) (env : Env) (k : Nat) :
    EnsureOutcome × List Act :=
  let r := poll_loop cfg env k 20 (format_startup_failure cfg diag)
  (r.1, [Act.popen (launchCmd cfg.pythonExe),
         Act.spawnMonitor env.newPid] ++ r.2)

/-- `ensure_server()` (lines 186–252).  `expected_version` is
`getattr(buckaroo, "__version__", "unknown")`.  Control flow, faithfully:
probe once; if the result is a truthy dict whose `version` (default
`"unknown"`) equals the expected version, return the `"reused"` dict; on a
version mismatch with a truthy `pid`, attempt `os.kill(pid, SIGTERM)`, and
if that did not raise, `time.sleep(1)`, re-probe, and if the re-probe is
truthy attempt `os.kill(pid, SIGKILL)` followed by `time.sleep(0.5)` when
it did not raise (`OSError` from either kill is caught); in every non-reuse
case fall through to the launch-and-poll phase. -/
def ensure_server (cfg : Config) (diag : Diag) (expected_version : String)
    (env : Env) : EnsureOutcome × List Act :=
  let p0 := Act.probe (healthURL cfg.port)
  match health_check (env.http 0) with
  | .jsonError => (.jsonError, [p0])
  | .ret none =>
    let r := launch_and_wait cfg diag env 1
    (r.1, p0 :: r.2)
  | .ret (some d) =>
    if d.truthy then
      if d.version.getD "unknown" = expected_version then
        (.ok { server_status := "reused", server_pid := d.pid,
               server_uptime_s := d.uptime_s.getD 0 }, [p0])
      else
        match d.pid with
        | some oldPid =>
          if oldPid ≠ 0 then
            if env.killOk oldPid .SIGTERM then
              let tAct := [Act.kill oldPid .SIGTERM, Act.sleep 1000,
                           Act.probe (healthURL cfg.port)]
              match health_check (env.http 1) with
              | .jsonError => (.jsonError, p0 :: tAct)
              | .ret h2 =>
                let alive := match h2 with
                  | some d2 => d2.truthy
                  | none => false
                if alive then
                  if env.killOk oldPid .SIGKILL then
                    let r := launch_and_wait cfg diag env 2
                    (r.1, p0 :: tAct ++
                      [Act.kill oldPid .SIGKILL, Act.sleep 500] ++ r.2)
                  else
                    let r := launch_and_wait cfg diag env 2
                    (r.1, p0 :: tAct ++ [Act.kill oldPid .SIGKILL] ++ r.2)
                else
                  let r := launch_and_wait cfg diag env 2
                  (r.1, p0 :: tAct ++ r.2)
            else
              let r := launch_and_wait cfg diag env 1
              (r.1, p0 :: Act.kill oldPid .SIGTERM :: r.2)
          else
            let r := launch_and_wait cfg diag env 1
            (r.1, p0 :: r.2)
        | none =>
          let r := launch_and_wait cfg diag env 1
          (r.1, p0 :: r.2)
    else
      let r := launch_and_wait cfg diag env 1
      (r.1, p0 :: r.2)

/-- A `subprocess.Popen` handle still stored in a module global; only the
pid is relevant to the claims. -/
structure ProcHandle where
  pid : Int
deriving DecidableEq

/-- The module-global mutable state: `_server_proc` and `_server_monitor`
(lines 37–38), each `None` or a process handle. -/
structure SupState where
  server_proc : Option ProcHandle
  server_monitor : Option ProcHandle
deriving DecidableEq

/-- Environment of one `_cleanup_server()` invocation: outcomes of the
effectful calls it may make.  `pollRaises`: `_server_proc.poll()` raises
`OSError`; `running`: `poll()` returns `None` (process still running);
`termRaises`: `_server_proc.terminate()` raises `OSError`; `waitTimesOut`:
`_server_proc.wait(timeout=3)` raises `TimeoutExpired`; `monTermRaises`:
`_server_monitor.terminate()` raises; `monWaitTimesOut`: the monitor
`wait(timeout=2)` raises (both monitor failures are swallowed). -/
structure CleanupEnv where
  pollRaises : Bool
  running : Bool
  termRaises : Bool
  waitTimesOut : Bool
  monTermRaises : Bool
  monWaitTimesOut : Bool

/-- The effectful actions `_cleanup_server` can perform. `wait`/`waitMon`
carry the timeout in milliseconds. -/
inductive CAct where
  | poll (pid : Int)
  | term (pid : Int)
  | wait (pid : Int) (ms : Nat)
  | killProc (pid : Int)
  | termMonitor (pid : Int)
  | waitMonitor (pid : Int) (ms : Nat)
deriving DecidableEq

/-- `_cleanup_server()` (lines 68–90): for each of the two handles, act
only if it is not `None`, and set it to `None` afterwards in every case.
For the server handle: `poll()`; if still running, `terminate()`; then
`wait(timeout=3)`; on `TimeoutExpired`, `kill()`; any `OSError` along the
way is caught (ending the server part early).  For the monitor handle:
`terminate()` then `wait(timeout=2)`, with `OSError`/`TimeoutExpired`
swallowed.  Returns the new global state and the action list. -/
def cleanup_server (st : SupState) (env : CleanupEnv) :
    SupState × List CAct :=
  let acts1 : List CAct :=
    match st.server_proc with
    | none => []
    | some p =>
      if env.pollRaises then [.poll p.pid]
      else if env.running then
        if env.termRaises then [.poll p.pid, .term p.pid]
        else if env.waitTimesOut then
          [.poll p.pid, .term p.pid, .wait p.pid 3000, .killProc p.pid]
        else [.poll p.pid, .term p.pid, .wait p.pid 3000]
      else [.poll p.pid]
  let acts2 : List CAct :=
    match st.server_monitor with
    | none => []
    | some m =>
      if env.monTermRaises then [.termMonitor m.pid]
      else [.termMonitor m.pid, .waitMonitor m.pid 2000]
  (⟨none, none⟩, acts1 ++ acts2)

/-- The actions of `_signal_handler` (lines 96–102): the cleanup actions,
then `signal.signal(signum, signal.SIG_DFL)`, then
`os.kill(os.getpid(), signum)`. -/
inductive SigAct where
  | ofCleanup (a : CAct)
  | setDefault (s : Sig)
  | raiseSelf (s : Sig)
deriving DecidableEq

/-- `_signal_handler(signum, frame)` (lines 96–102): run
`_cleanup_server()`, then reset the signal's disposition to the OS default
and re-deliver the same signal to the current process. -/
def signal_handler (signum : Sig) (st : SupState) (env : CleanupEnv) :
    SupState × List SigAct :=
  let c := cleanup_server st env
  (c.1, c.2.map SigAct.ofCleanup ++
        [SigAct.setDefault signum, SigAct.raiseSelf signum])

/-- The signals the module registers `_signal_handler` for
(lines 105–106). -/
def registered_signals : List Sig :=
  [Sig.SIGTERM, Sig.SIGINT]

/-- Actions of the watchdog process spawned by `_start_server_monitor`:
`readToEOF n` is `sys.stdin.buffer.read()` returning after consuming all
`n` bytes, i.e. only once the write end of its stdin pipe has been closed;
`kill` is the attempted `os.kill`; `exitProc` is the interpreter exiting at
the end of the script. -/
inductive MAct where
  | readToEOF (bytesRead : Nat)
  | kill (pid : Int) (s : Sig)
  | exitProc
deriving DecidableEq

/-- The watchdog program generated by `_start_server_monitor`
(lines 49–57): `sys.stdin.buffer.read()` (blocks until end-of-stream —
i.e. until the supervisor-held write end of the pipe is closed, which the
OS does when the supervisor dies by any means); then
`try: os.kill(server_pid, signal.SIGTERM) except OSError: pass`; then the
script ends.  `stdinBytes` is however many bytes were ever written to the
pipe (the supervisor writes none) and `killOk` is whether the `os.kill`
raises `OSError` (e.g. the server is already gone) — the `except` swallows
the failure either way. -/
def monitor_run (server_pid : Int) (stdinBytes : Nat) (killOk : Bool) :
    List MAct :=
  [MAct.readToEOF stdinBytes] ++
  (match killOk with
   | true => [MAct.kill server_pid Sig.SIGTERM]
   | false => [MAct.kill server_pid Sig.SIGTERM]) ++
  [MAct.exitProc]

/-- Actions of the orphan-detector thread started by
`_start_parent_watcher` (lines 399–422): a 1-second sleep, a read of
`os.getppid()` (with the value it returned), the cleanup actions, and the
final `os._exit(0)`. -/
inductive WAct where
  | sleep (ms : Nat)
  | readPpid (value : Int)
  | ofCleanup (a : CAct)
  | exitNow (code : Nat)
deriving DecidableEq

/-- The `_watcher` loop (lines 412–419): every iteration sleeps 1s, reads
the current parent pid, and when it differs from `original` (the parent pid
recorded once when `_start_parent_watcher` ran) calls `_cleanup_server()`
and then `os._exit(0)` — nothing runs after that.  `ppid n` is the parent
pid observed at the n-th iteration; `fuel` bounds how many iterations we
unfold (the Python loop is `while True`); the boolean result is `true` iff
the supervisor exited within `fuel` iterations. -/
def watcher_run (original : Int) (ppid : Nat → Int) (st : SupState)
    (cenv : CleanupEnv) : Nat → Nat → List WAct × Bool
  | 0, _ => ([], false)
  | fuel + 1, n =>
    let pre := [WAct.sleep 1000, WAct.readPpid (ppid n)]
    if ppid n ≠ original then
      let c := cleanup_server st cenv
      (pre ++ c.2.map WAct.ofCleanup ++ [WAct.exitNow 0], true)
    else
      let r := watcher_run original ppid st cenv fuel (n + 1)
      (pre ++ r.1, r.2)

/-! Concrete example values used by scenario theorems and witnesses. -/

/-- The health dict of the spec's reuse scenario:
`{status: "ok", pid: 501, version: "1.2.0"}`. -/
def d501 : HealthDict :=
  { status := some "ok", pid := some 501, version := some "1.2.0" }

/-- Example configuration: the default port 8700. -/
def cfgEx : Config :=
  { pythonExe := "/usr/bin/python3", port := 8700 }

/-- Example diagnostic inputs. -/
def diagEx : Diag :=
  { pyVersionShort := "3.11.0"
    logDir := "/home/u/.buckaroo/logs"
    mcpLogFile := "/home/u/.buckaroo/logs/mcp_tool.log"
    serverLogLines := none }

/-- Environment in which the first health probe reports the scenario dict
`d501` and the server is healthy. -/
def env501 : Env :=
  { http := fun n => if n = 0 then .response 200 (.valid d501) else .urlError
    killOk := fun _ _ => true
    newPid := 999 }

/-- Environment in which the server never answers a health probe. -/
def envAbsent : Env :=
  { http := fun _ => .urlError
    killOk := fun _ _ => true
    newPid := 777 }

/-- Example global state with both handles live. -/
def stEx : SupState :=
  ⟨some ⟨501⟩, some ⟨502⟩⟩

/-- Example cleanup environment: the server is still running and every call
succeeds within its timeout. -/
def cenvEx : CleanupEnv :=
  ⟨false, true, false, false, false, false⟩

/-! The claims. -/

/-- Claim C1 (amended): `_health_check` returns the parsed report dict on a
200 response with a valid JSON body, and returns `None` on any connection
failure, timeout, or non-200 status; but on a 200 response whose body is
not valid JSON it raises `json.JSONDecodeError` to its caller (the
`except (URLError, OSError)` clause does not catch `ValueError`), rather
than returning `None`. -/
theorem c1_health_check_behavior (status : Nat) (body : JsonBody)
    (d : HealthDict) :
    health_check HttpOutcome.urlError = HCResult.ret none ∧
    health_check HttpOutcome.osError = HCResult.ret none ∧
    (status ≠ 200 →
      health_check (HttpOutcome.response status body) = HCResult.ret none) ∧
    health_check (HttpOutcome.response 200 (JsonBody.valid d)) =
      HCResult.ret (some d) ∧
    health_check (HttpOutcome.response 200 JsonBody.malformed) =
      HCResult.jsonError := by
  refine ⟨rfl, rfl, ?_, rfl, rfl⟩
  intro h
  simp [health_check, h]

/-- Claim C1, counterexample to the claim as stated: on a 200 response
whose body is not valid JSON, `_health_check` does not return `None` — it
propagates the JSON parse error. -/
theorem c1_health_check_counterexample :
    health_check (HttpOutcome.response 200 JsonBody.malformed) =
      HCResult.jsonError ∧
    health_check (HttpOutcome.response 200 JsonBody.malformed) ≠
      HCResult.ret none := by
  exact ⟨rfl, by decide⟩

/-- Claim C1, witness: the amended theorem applied at a concrete non-200
status and a concrete valid body. -/
theorem c1_health_check_behavior_witness :
    health_check (HttpOutcome.response 404 JsonBody.malformed) =
      HCResult.ret none ∧
    health_check (HttpOutcome.response 200 (JsonBody.valid d501)) =
      HCResult.ret (some d501) :=
  ⟨(c1_health_check_behavior 404 JsonBody.malformed d501).2.2.1 (by decide),
   (c1_health_check_behavior 404 JsonBody.malformed d501).2.2.2.1⟩

/-- Claim C5: with the first health probe reporting
`{status: "ok", pid: 501, version: "1.2.0"}` and expected version
`"1.2.0"`, `ensure_server` returns the `"reused"` dict with pid 501, its
only action is that single probe, and it spawns no process (no `Popen`, no
monitor). -/
theorem c5_reuse_scenario :
    (ensure_server cfgEx diagEx "1.2.0" env501).1 =
      EnsureOutcome.ok { server_status := "reused", server_pid := some 501,
                         server_uptime_s := 0 } ∧
    (ensure_server cfgEx diagEx "1.2.0" env501).2 =
      [Act.probe (healthURL 8700)] ∧
    (∀ c, Act.popen c ∉ (ensure_server cfgEx diagEx "1.2.0" env501).2) ∧
    (∀ p, Act.spawnMonitor p ∉ (ensure_server cfgEx diagEx "1.2.0" env501).2) := by
  have h2 : (ensure_server cfgEx diagEx "1.2.0" env501).2 =
      [Act.probe (healthURL 8700)] := by decide
  refine ⟨by decide, h2, ?_, ?_⟩
  · intro c hc
    rw [h2] at hc
    simp at hc
  · intro p hp
    rw [h2] at hp
    simp at hp

/-- Claim C6: `_cleanup_server` is idempotent — every invocation leaves
both global handles `None`, and an immediately following second invocation
performs no actions at all (no signals, no waits) whatever its
environment. -/
theorem c6_cleanup_idempotent (st : SupState) (env1 env2 : CleanupEnv) :
    (cleanup_server st env1).1 = ⟨none, none⟩ ∧
    cleanup_server (cleanup_server st env1).1 env2 = (⟨none, none⟩, []) :=
  ⟨rfl, rfl⟩

/-- Claim C7: for each signal the module registers the handler for (exactly
SIGTERM and SIGINT), `_signal_handler` first performs the
`_cleanup_server` actions (the same routine as a normal `atexit` exit),
then resets that signal's disposition to the OS default, then re-delivers
the same signal to its own process — in that order, with nothing after the
re-delivery. -/
theorem c7_signal_handler (s : Sig) (st : SupState) (env : CleanupEnv)
    (_hs : s ∈ registered_signals) :
    (signal_handler s st env).2 =
      (cleanup_server st env).2.map SigAct.ofCleanup ++
      [SigAct.setDefault s, SigAct.raiseSelf s] ∧
    (signal_handler s st env).1 = ⟨none, none⟩ ∧
    registered_signals = [Sig.SIGTERM, Sig.SIGINT] :=
  ⟨rfl, rfl, rfl⟩

/-- Claim C7, witness: the handler applied to SIGTERM on live handles. -/
theorem c7_signal_handler_witness :
    (signal_handler Sig.SIGTERM stEx cenvEx).2 =
      (cleanup_server stEx cenvEx).2.map SigAct.ofCleanup ++
      [SigAct.setDefault Sig.SIGTERM, SigAct.raiseSelf Sig.SIGTERM] :=
  (c7_signal_handler Sig.SIGTERM stEx cenvEx (by decide)).1

/-- Claim C8: the watchdog spawned by `_start_server_monitor` first blocks
reading its standard input until end-of-stream (which the OS produces
exactly when the supervisor-held write end of the pipe closes — in
particular when the supervisor is killed with no cleanup code running),
then sends exactly one SIGTERM to the recorded service pid, ignoring an
`OSError` if that process no longer exists (the trace is the same whether
the kill succeeds or fails), and then exits, with nothing after the
kill attempt but the exit. -/
theorem c8_monitor_behavior (server_pid : Int) (stdinBytes : Nat)
    (k1 k2 : Bool) :
    monitor_run server_pid stdinBytes k1 =
      [MAct.readToEOF stdinBytes, MAct.kill server_pid Sig.SIGTERM,
       MAct.exitProc] ∧
    monitor_run server_pid stdinBytes k1 =
      monitor_run server_pid stdinBytes k2 ∧
    (monitor_run server_pid stdinBytes k1).countP
      (fun a => match a with | MAct.kill _ _ => true | _ => false) = 1 := by
  cases k1 <;> cases k2 <;> exact ⟨rfl, rfl, rfl⟩

/-- Claim C2: when the health probe finds a truthy report whose version is
the expected one — the state a first successful `ensure_server` call leaves
behind when called again in immediate succession — `ensure_server` returns
the `"reused"` dict, performs only that single probe, and in particular
launches no subprocess and spawns no monitor. -/
theorem c2_ensure_server_idempotent (cfg : Config) (diag : Diag)
    (expected : String) (env : Env) (d : HealthDict)
    (h0 : env.http 0 = HttpOutcome.response 200 (JsonBody.valid d))
    (hv : d.version = some expected) :
    (ensure_server cfg diag expected env).1 =
      EnsureOutcome.ok { server_status := "reused", server_pid := d.pid,
                         server_uptime_s := d.uptime_s.getD 0 } ∧
    (ensure_server cfg diag expected env).2 =
      [Act.probe (healthURL cfg.port)] ∧
    (∀ c, Act.popen c ∉ (ensure_server cfg diag expected env).2) ∧
    (∀ p, Act.spawnMonitor p ∉ (ensure_server cfg diag expected env).2) := by
  have htr : d.truthy = true := by
    simp [HealthDict.truthy, hv]
  have key : ensure_server cfg diag expected env =
      (EnsureOutcome.ok { server_status := "reused", server_pid := d.pid,
                          server_uptime_s := d.uptime_s.getD 0 },
       [Act.probe (healthURL cfg.port)]) := by
    simp [ensure_server, h0, health_check, htr, hv]
  refine ⟨by rw [key], by rw [key], ?_, ?_⟩
  · intro c hc
    rw [key] at hc
    simp at hc
  · intro p hp
    rw [key] at hp
    simp at hp

/-- Claim C2, witness: the theorem at the concrete reuse scenario. -/
theorem c2_ensure_server_idempotent_witness :
    (ensure_server cfgEx diagEx "1.2.0" env501).1 =
      EnsureOutcome.ok { server_status := "reused", server_pid := some 501,
                         server_uptime_s := 0 } := by
  have h := c2_ensure_server_idempotent cfgEx diagEx "1.2.0" env501 d501
    (by decide) (by decide)
  simpa [d501] using h.1

/-- Every poll of the retry loop that finds the server absent consumes one
quarter-second sleep and one probe; if all `fuel` polls find it absent the
loop ends in the startup error. -/
theorem poll_loop_never_healthy (cfg : Config) (env : Env) (msg : String)
    (h : ∀ n, health_check (env.http n) = HCResult.ret none) :
    ∀ fuel k, poll_loop cfg env k fuel msg =
      (EnsureOutcome.startupError msg,
       List.flatten (List.replicate fuel
         [Act.sleep 250, Act.probe (healthURL cfg.port)])) := by
  intro fuel
  induction fuel with
  | zero =>
    intro k
    simp [poll_loop]
  | succ n ih =>
    intro k
    simp [poll_loop, h k, ih (k + 1), List.replicate_succ]

/-- Claim C3: if every health probe finds the server absent, `ensure_server`
raises the startup error exactly after the launch plus 20 polls at 0.25 s
(the trace is precisely one initial probe, the `Popen`, the monitor spawn,
and then exactly 20 sleep-250ms/probe pairs — not fewer, not more), and the
error message contains the configured server endpoint URL. -/
theorem c3_startup_timeout (cfg : Config) (diag : Diag) (expected : String)
    (env : Env) (h : ∀ n, health_check (env.http n) = HCResult.ret none) :
    (ensure_server cfg diag expected env).1 =
      EnsureOutcome.startupError (format_startup_failure cfg diag) ∧
    (ensure_server cfg diag expected env).2 =
      Act.probe (healthURL cfg.port) ::
      Act.popen (launchCmd cfg.pythonExe) ::
      Act.spawnMonitor env.newPid ::
      List.flatten (List.replicate 20
        [Act.sleep 250, Act.probe (healthURL cfg.port)]) ∧
    strContains (format_startup_failure cfg diag) (SERVER_URL cfg.port) := by
  refine ⟨?_, ?_, ?_⟩
  · simp [ensure_server, h 0, launch_and_wait,
      poll_loop_never_healthy cfg env _ h]
  · simp [ensure_server, h 0, launch_and_wait,
      poll_loop_never_healthy cfg env _ h]
  · refine ⟨"Buckaroo data server failed to start.\n\n" ++
      "## Diagnostic info\n" ++
      "- Python: " ++ cfg.pythonExe ++ " (" ++ diag.pyVersionShort ++ ")\n" ++
      "- Server URL: ",
      "\n" ++
      "- Log dir: " ++ diag.logDir ++ "\n\n" ++
      "## Server log (last 20 lines)\n```\n" ++
        read_server_log_tail diag.serverLogLines 20 ++ "\n```\n\n" ++
      "## What to check\n" ++
      "1. Is port " ++ toString cfg.port ++ " already in use? " ++
        "(`lsof -i :" ++ toString cfg.port ++ "`)\n" ++
      "2. Check the full server log: `cat " ++
        (diag.logDir ++ "/server.log") ++ "`\n" ++
      "3. Check the MCP tool log: `cat " ++ diag.mcpLogFile ++ "`\n" ++
      "4. Try starting the server manually: `" ++ cfg.pythonExe ++
        " -m buckaroo.server --no-browser --port " ++ toString cfg.port ++
        "`\n", ?_⟩
    simp [format_startup_failure, String.append_assoc]

/-- Claim C3, witness: the timeout theorem at a concrete environment in
which the server never answers. -/
theorem c3_startup_timeout_witness :
    (ensure_server cfgEx diagEx "1.2.0" envAbsent).1 =
      EnsureOutcome.startupError (format_startup_failure cfgEx diagEx) ∧
    strContains (format_startup_failure cfgEx diagEx)
      (SERVER_URL cfgEx.port) := by
  have h := c3_startup_timeout cfgEx diagEx "1.2.0" envAbsent
    (fun _ => rfl)
  exact ⟨h.1, h.2.2⟩

/-- Unfolding of the watcher loop from an arbitrary start index: while the
observed parent pid equals the recorded one the loop keeps sleeping and
re-reading; at the first index where it differs it performs the cleanup
actions and exits, with nothing afterwards. -/
theorem watcher_run_detects (original : Int) (ppid : Nat → Int)
    (st : SupState) (cenv : CleanupEnv) :
    ∀ (j k fuel : Nat), (∀ m, m < j → ppid (k + m) = original) →
      ppid (k + j) ≠ original → j < fuel →
      watcher_run original ppid st cenv fuel k =
        (List.flatten (List.replicate j
           [WAct.sleep 1000, WAct.readPpid original]) ++
         [WAct.sleep 1000, WAct.readPpid (ppid (k + j))] ++
         (cleanup_server st cenv).2.map WAct.ofCleanup ++
         [WAct.exitNow 0], true) := by
  intro j
  induction j with
  | zero =>
    intro k fuel hbefore hdiff hfuel
    match fuel, hfuel with
    | fuel + 1, _ =>
      simp only [watcher_run]
      rw [if_pos (by simpa using hdiff)]
      simp
  | succ j ih =>
    intro k fuel hbefore hdiff hfuel
    match fuel, hfuel with
    | fuel + 1, hfuel =>
      have hk : ppid k = original := by
        simpa using hbefore 0 (Nat.succ_pos j)
      simp only [watcher_run]
      rw [if_neg (by simpa using hk)]
      have hrec := ih (k + 1) fuel
        (fun m hm => by
          have := hbefore (m + 1) (Nat.succ_lt_succ hm)
          simpa [Nat.add_assoc, Nat.add_comm, Nat.add_left_comm] using this)
        (by
          have : k + 1 + j = k + (j + 1) := by omega
          simpa [this] using hdiff)
        (Nat.lt_of_succ_lt_succ hfuel)
      rw [hrec]
      have harg : k + 1 + j = k + (j + 1) := by omega
      simp [List.replicate_succ, hk, harg]

/-- Claim C9: the orphan-detector thread records the parent pid once at
startup (`original`) and then, each iteration, sleeps about 1 s and
re-reads the current parent pid; at the first iteration where the observed
pid differs it runs exactly the `_cleanup_server` actions (the same cleanup
as normal shutdown, terminating the service and watchdog handles) and then
terminates the supervisor with `os._exit(0)` immediately — the exit is the
last action and the loop does nothing further. -/
theorem c9_parent_watcher (original : Int) (ppid : Nat → Int)
    (st : SupState) (cenv : CleanupEnv) (n fuel : Nat)
    (hbefore : ∀ m, m < n → ppid m = original)
    (hdiff : ppid n ≠ original) (hfuel : n < fuel) :
    watcher_run original ppid st cenv fuel 0 =
      (List.flatten (List.replicate n
         [WAct.sleep 1000, WAct.readPpid original]) ++
       [WAct.sleep 1000, WAct.readPpid (ppid n)] ++
       (cleanup_server st cenv).2.map WAct.ofCleanup ++
       [WAct.exitNow 0], true) := by
  have h := watcher_run_detects original ppid st cenv n 0 fuel
    (fun m hm => by simpa using hbefore m hm)
    (by simpa using hdiff) hfuel
  simpa using h

/-- Claim C9, witness: a supervisor reparented at the very first poll. -/
theorem c9_parent_watcher_witness :
    watcher_run 100 (fun _ => 1) stEx cenvEx 3 0 =
      ([WAct.sleep 1000, WAct.readPpid 1] ++
       (cleanup_server stEx cenvEx).2.map WAct.ofCleanup ++
       [WAct.exitNow 0], true) := by
  have h := c9_parent_watcher 100 (fun _ => 1) stEx cenvEx 0 3
    (fun m hm => absurd hm (Nat.not_lt_zero m)) (by decide) (by decide)
  simpa using h

/-- The launch phase always performs the `Popen` of the launch command. -/
theorem launch_and_wait_mem_popen (cfg : Config) (diag : Diag) (env : Env)
    (k : Nat) :
    Act.popen (launchCmd cfg.pythonExe) ∈ (launch_and_wait cfg diag env k).2 := by
  simp [launch_and_wait]

/-- The launch phase always spawns the watchdog on the new pid. -/
theorem launch_and_wait_mem_monitor (cfg : Config) (diag : Diag) (env : Env)
    (k : Nat) :
    Act.spawnMonitor env.newPid ∈ (launch_and_wait cfg diag env k).2 := by
  simp [launch_and_wait]

/-- Claim C4: on a health report whose version differs from the expected
one (with a truthy reported pid), `ensure_server` attempts
`os.kill(pid, SIGTERM)`; when that kill did not raise it sleeps 1 s and
re-probes, and if the re-probe still finds a truthy report it attempts
`os.kill(pid, SIGKILL)`; and in every case — in particular when the SIGTERM
kill raises `OSError` — it proceeds to launch a new service process (the
`Popen` and the monitor spawn are always in the trace, provided only that
the re-probe does not itself raise a JSON parse error), so a failure to
kill the stale process is never raised to the caller. -/
theorem c4_version_mismatch_teardown (cfg : Config) (diag : Diag)
    (expected : String) (env : Env) (d : HealthDict) (rv : String)
    (oldPid : Int)
    (h0 : env.http 0 = HttpOutcome.response 200 (JsonBody.valid d))
    (hv : d.version = some rv) (hne : rv ≠ expected)
    (hp : d.pid = some oldPid) (hpz : oldPid ≠ 0)
    (hjson : health_check (env.http 1) ≠ HCResult.jsonError) :
    Act.popen (launchCmd cfg.pythonExe) ∈
      (ensure_server cfg diag expected env).2 ∧
    Act.spawnMonitor env.newPid ∈ (ensure_server cfg diag expected env).2 ∧
    (env.killOk oldPid Sig.SIGTERM = true →
      ∃ rest, (ensure_server cfg diag expected env).2 =
        Act.probe (healthURL cfg.port) :: Act.kill oldPid Sig.SIGTERM ::
        Act.sleep 1000 :: Act.probe (healthURL cfg.port) :: rest) ∧
    (env.killOk oldPid Sig.SIGTERM = true →
      ∀ d2, health_check (env.http 1) = HCResult.ret (some d2) →
        d2.truthy = true →
        Act.kill oldPid Sig.SIGKILL ∈ (ensure_server cfg diag expected env).2) ∧
    (env.killOk oldPid Sig.SIGTERM = false →
      (ensure_server cfg diag expected env).2 =
        Act.probe (healthURL cfg.port) :: Act.kill oldPid Sig.SIGTERM ::
        (launch_and_wait cfg diag env 1).2) := by
  have htr : d.truthy = true := by
    simp [HealthDict.truthy, hv]
  have hgd : d.version.getD "unknown" = rv := by
    rw [hv]
    rfl
  have hc0 : health_check (env.http 0) = HCResult.ret (some d) := by
    rw [h0]
    rfl
  cases hk : env.killOk oldPid Sig.SIGTERM with
  | false =>
    have key : ensure_server cfg diag expected env =
        ((launch_and_wait cfg diag env 1).1,
         Act.probe (healthURL cfg.port) :: Act.kill oldPid Sig.SIGTERM ::
         (launch_and_wait cfg diag env 1).2) := by
      simp [ensure_server, hc0, htr, hgd, hne, hp, hpz, hk]
    refine ⟨?_, ?_, ?_, ?_, ?_⟩
    · rw [key]
      simp [launch_and_wait_mem_popen cfg diag env 1]
    · rw [key]
      simp [launch_and_wait_mem_monitor cfg diag env 1]
    · intro h
      exact Bool.noConfusion h
    · intro h
      exact Bool.noConfusion h
    · intro _
      rw [key]
  | true =>
    cases hh : health_check (env.http 1) with
    | jsonError => exact absurd hh hjson
    | ret h2 =>
      cases h2 with
      | none =>
        have key : ensure_server cfg diag expected env =
            ((launch_and_wait cfg diag env 2).1,
             Act.probe (healthURL cfg.port) :: Act.kill oldPid Sig.SIGTERM ::
             Act.sleep 1000 :: Act.probe (healthURL cfg.port) ::
             (launch_and_wait cfg diag env 2).2) := by
          simp [ensure_server, hc0, htr, hgd, hne, hp, hpz, hk, hh]
        refine ⟨?_, ?_, ?_, ?_, ?_⟩
        · rw [key]
          simp [launch_and_wait_mem_popen cfg diag env 2]
        · rw [key]
          simp [launch_and_wait_mem_monitor cfg diag env 2]
        · intro _
          exact ⟨(launch_and_wait cfg diag env 2).2, by rw [key]⟩
        · intro _ d2 hd2 _
          simp at hd2
        · intro h
          exact Bool.noConfusion h
      | some d2 =>
        cases ht2 : d2.truthy with
        | false =>
          have key : ensure_server cfg diag expected env =
              ((launch_and_wait cfg diag env 2).1,
               Act.probe (healthURL cfg.port) :: Act.kill oldPid Sig.SIGTERM ::
               Act.sleep 1000 :: Act.probe (healthURL cfg.port) ::
               (launch_and_wait cfg diag env 2).2) := by
            simp [ensure_server, hc0, htr, hgd, hne, hp, hpz, hk, hh, ht2]
          refine ⟨?_, ?_, ?_, ?_, ?_⟩
          · rw [key]
            simp [launch_and_wait_mem_popen cfg diag env 2]
          · rw [key]
            simp [launch_and_wait_mem_monitor cfg diag env 2]
          · intro _
            exact ⟨(launch_and_wait cfg diag env 2).2, by rw [key]⟩
          · intro _ d2' hd2 ht2'
            simp only [HCResult.ret.injEq, Option.some.injEq] at hd2
            rw [← hd2] at ht2'
            rw [ht2'] at ht2
            exact Bool.noConfusion ht2
          · intro h
            exact Bool.noConfusion h
        | true =>
          cases hk2 : env.killOk oldPid Sig.SIGKILL with
          | true =>
            have key : ensure_server cfg diag expected env =
                ((launch_and_wait cfg diag env 2).1,
                 Act.probe (healthURL cfg.port) ::
                 Act.kill oldPid Sig.SIGTERM ::
                 Act.sleep 1000 :: Act.probe (healthURL cfg.port) ::
                 Act.kill oldPid Sig.SIGKILL :: Act.sleep 500 ::
                 (launch_and_wait cfg diag env 2).2) := by
              simp [ensure_server, hc0, htr, hgd, hne, hp, hpz, hk, hh,
                ht2, hk2]
            refine ⟨?_, ?_, ?_, ?_, ?_⟩
            · rw [key]
              simp [launch_and_wait_mem_popen cfg diag env 2]
            · rw [key]
              simp [launch_and_wait_mem_monitor cfg diag env 2]
            · intro _
              exact ⟨Act.kill oldPid Sig.SIGKILL :: Act.sleep 500 ::
                (launch_and_wait cfg diag env 2).2, by rw [key]⟩
            · intro _ d2' _ _
              rw [key]
              simp
            · intro h
              exact Bool.noConfusion h
          | false =>
            have key : ensure_server cfg diag expected env =
                ((launch_and_wait cfg diag env 2).1,
                 Act.probe (healthURL cfg.port) ::
                 Act.kill oldPid Sig.SIGTERM ::
                 Act.sleep 1000 :: Act.probe (healthURL cfg.port) ::
                 Act.kill oldPid Sig.SIGKILL ::
                 (launch_and_wait cfg diag env 2).2) := by
              simp [ensure_server, hc0, htr, hgd, hne, hp, hpz, hk, hh,
                ht2, hk2]
            refine ⟨?_, ?_, ?_, ?_, ?_⟩
            · rw [key]
              simp [launch_and_wait_mem_popen cfg diag env 2]
            · rw [key]
              simp [launch_and_wait_mem_monitor cfg diag env 2]
            · intro _
              exact ⟨Act.kill oldPid Sig.SIGKILL ::
                (launch_and_wait cfg diag env 2).2, by rw [key]⟩
            · intro _ d2' _ _
              rw [key]
              simp
            · intro h
              exact Bool.noConfusion h

/-- Environment of the version-mismatch scenario: the first two probes see
a truthy report with version `"1.1.0"` and pid 501; later probes see
nothing. -/
def envMismatch : Env :=
  { http := fun n =>
      if n = 0 then
        .response 200 (.valid { status := some "ok", pid := some 501,
                                version := some "1.1.0" })
      else if n = 1 then
        .response 200 (.valid { status := some "ok", pid := some 501,
                                version := some "1.1.0" })
      else .urlError
    killOk := fun _ _ => true
    newPid := 888 }

/-- Claim C4, witness: the teardown theorem at the concrete mismatch
scenario (running 1.1.0, expected 1.2.0, old pid 501 still alive at the
re-probe). -/
theorem c4_version_mismatch_teardown_witness :
    Act.popen (launchCmd cfgEx.pythonExe) ∈
      (ensure_server cfgEx diagEx "1.2.0" envMismatch).2 ∧
    Act.kill 501 Sig.SIGKILL ∈
      (ensure_server cfgEx diagEx "1.2.0" envMismatch).2 := by
  have h := c4_version_mismatch_teardown cfgEx diagEx "1.2.0" envMismatch
    { status := some "ok", pid := some 501, version := some "1.1.0" }
    "1.1.0" 501 rfl rfl (by decide) rfl (by decide) (by decide)
  exact ⟨h.1, h.2.2.2.1 rfl
    { status := some "ok", pid := some 501, version := some "1.1.0" }
    rfl rfl⟩

/-- Every action of the retry loop is a quarter-second sleep or a probe of
the configured health URL. -/
theorem poll_loop_acts (cfg : Config) (env : Env) (msg : String) :
    ∀ fuel k a, a ∈ (poll_loop cfg env k fuel msg).2 →
      a = Act.sleep 250 ∨ a = Act.probe (healthURL cfg.port) := by
  intro fuel
  induction fuel with
  | zero =>
    intro k a ha
    simp [poll_loop] at ha
  | succ n ih =>
    intro k a ha
    cases hc : health_check (env.http k) with
    | jsonError =>
      simp [poll_loop, hc] at ha
      tauto
    | ret h2 =>
      cases h2 with
      | none =>
        simp [poll_loop, hc] at ha
        rcases ha with h | h | h
        · exact Or.inl h
        · exact Or.inr h
        · exact ih (k + 1) a h
      | some d =>
        cases ht : d.truthy with
        | true =>
          simp [poll_loop, hc, ht] at ha
          tauto
        | false =>
          simp [poll_loop, hc, ht] at ha
          rcases ha with h | h | h
          · exact Or.inl h
          · exact Or.inr h
          · exact ih (k + 1) a h

/-- Every action of the launch phase is the `Popen` of the launch command,
the monitor spawn on the new pid, a sleep, or a probe of the configured
health URL. -/
theorem launch_and_wait_acts (cfg : Config) (diag : Diag) (env : Env)
    (k : Nat) (a : Act) (ha : a ∈ (launch_and_wait cfg diag env k).2) :
    a = Act.popen (launchCmd cfg.pythonExe) ∨
    a = Act.spawnMonitor env.newPid ∨
    a = Act.sleep 250 ∨ a = Act.probe (healthURL cfg.port) := by
  simp only [launch_and_wait, List.cons_append, List.nil_append,
    List.mem_cons] at ha
  rcases ha with h | h | h
  · exact Or.inl h
  · exact Or.inr (Or.inl h)
  · exact Or.inr (Or.inr (poll_loop_acts cfg env _ 20 k a h))

/-- `launch_and_wait_acts` recast in the five-way action classification
used for `ensure_server`. -/
theorem launch_and_wait_acts_classified (cfg : Config) (diag : Diag)
    (env : Env) (k : Nat) (a : Act)
    (h : a ∈ (launch_and_wait cfg diag env k).2) :
    a = Act.probe (healthURL cfg.port) ∨ (∃ p s, a = Act.kill p s) ∨
    (∃ ms, a = Act.sleep ms) ∨ a = Act.popen (launchCmd cfg.pythonExe) ∨
    a = Act.spawnMonitor env.newPid := by
  rcases launch_and_wait_acts cfg diag env k a h with h | h | h | h
  · exact Or.inr (Or.inr (Or.inr (Or.inl h)))
  · exact Or.inr (Or.inr (Or.inr (Or.inr h)))
  · exact Or.inr (Or.inr (Or.inl ⟨250, h⟩))
  · exact Or.inl h

/-- Classification of every action `ensure_server` can ever perform: a
probe of the configured health URL, an `os.kill`, a sleep, the `Popen` of
the fixed launch command, or the monitor spawn on the new pid. -/
theorem ensure_server_acts (cfg : Config) (diag : Diag) (expected : String)
    (env : Env) (a : Act)
    (ha : a ∈ (ensure_server cfg diag expected env).2) :
    a = Act.probe (healthURL cfg.port) ∨ (∃ p s, a = Act.kill p s) ∨
    (∃ ms, a = Act.sleep ms) ∨ a = Act.popen (launchCmd cfg.pythonExe) ∨
    a = Act.spawnMonitor env.newPid := by
  cases hc : health_check (env.http 0) with
  | jsonError =>
    simp [ensure_server, hc] at ha
    exact Or.inl ha
  | ret h0 =>
    cases h0 with
    | none =>
      simp only [ensure_server, hc, List.mem_cons] at ha
      rcases ha with h | h
      · exact Or.inl h
      · exact launch_and_wait_acts_classified cfg diag env 1 a h
    | some d =>
      cases htr : d.truthy with
      | false =>
        simp only [ensure_server, hc, htr, Bool.false_eq_true, if_false,
          List.mem_cons] at ha
        rcases ha with h | h
        · exact Or.inl h
        · exact launch_and_wait_acts_classified cfg diag env 1 a h
      | true =>
        by_cases hveq : d.version.getD "unknown" = expected
        · simp [ensure_server, hc, htr, hveq] at ha
          exact Or.inl ha
        · cases hp2 : d.pid with
          | none =>
            simp only [ensure_server, hc, htr, hveq, hp2, if_true,
              if_false, List.mem_cons] at ha
            rcases ha with h | h
            · exact Or.inl h
            · exact launch_and_wait_acts_classified cfg diag env 1 a h
          | some oldPid =>
            by_cases hpz : oldPid = 0
            · simp only [ensure_server, hc, htr, hveq, hp2, hpz,
                ne_eq, not_true_eq_false, if_false, if_true,
                List.mem_cons] at ha
              rcases ha with h | h
              · exact Or.inl h
              · exact launch_and_wait_acts_classified cfg diag env 1 a h
            · cases hk : env.killOk oldPid Sig.SIGTERM with
              | false =>
                simp only [ensure_server, hc, htr, hveq, hp2, hpz, hk,
                  ne_eq, not_false_eq_true, if_true, Bool.false_eq_true,
                  if_false, List.mem_cons] at ha
                rcases ha with h | h | h
                · exact Or.inl h
                · exact Or.inr (Or.inl ⟨oldPid, Sig.SIGTERM, h⟩)
                · exact launch_and_wait_acts_classified cfg diag env 1 a h
              | true =>
                cases hh : health_check (env.http 1) with
                | jsonError =>
                  simp only [ensure_server, hc, htr, hveq, hp2, hpz, hk,
                    hh, ne_eq, not_false_eq_true, if_true, if_false,
                    List.cons_append, List.nil_append,
                    List.mem_cons, List.not_mem_nil, or_false] at ha
                  rcases ha with h | h | h | h
                  · exact Or.inl h
                  · exact Or.inr (Or.inl ⟨oldPid, Sig.SIGTERM, h⟩)
                  · exact Or.inr (Or.inr (Or.inl ⟨1000, h⟩))
                  · exact Or.inl h
                | ret h2 =>
                  have hmem : ∀ kAct : List Act,
                      (∀ b, b ∈ kAct → b = Act.kill oldPid Sig.SIGKILL ∨
                        b = Act.sleep 500) →
                      a ∈ Act.probe (healthURL cfg.port) ::
                          Act.kill oldPid Sig.SIGTERM ::
                          Act.sleep 1000 :: Act.probe (healthURL cfg.port) ::
                          kAct ++ (launch_and_wait cfg diag env 2).2 →
                      a = Act.probe (healthURL cfg.port) ∨
                      (∃ p s, a = Act.kill p s) ∨
                      (∃ ms, a = Act.sleep ms) ∨
                      a = Act.popen (launchCmd cfg.pythonExe) ∨
                      a = Act.spawnMonitor env.newPid := by
                    intro kAct hk2 hmem
                    simp only [List.mem_cons, List.mem_append] at hmem
                    rcases hmem with (h | h | h | h | h) | h
                    · exact Or.inl h
                    · exact Or.inr (Or.inl ⟨oldPid, Sig.SIGTERM, h⟩)
                    · exact Or.inr (Or.inr (Or.inl ⟨1000, h⟩))
                    · exact Or.inl h
                    · rcases hk2 a h with h' | h'
                      · exact Or.inr (Or.inl ⟨oldPid, Sig.SIGKILL, h'⟩)
                      · exact Or.inr (Or.inr (Or.inl ⟨500, h'⟩))
                    · exact launch_and_wait_acts_classified cfg diag
                        env 2 a h
                  cases h2 with
                  | none =>
                    refine hmem [] (by simp) ?_
                    simpa only [ensure_server, hc, htr, hveq, hp2, hpz,
                      hk, hh, ne_eq, not_false_eq_true, if_true,
                      Bool.false_eq_true, if_false,
                      List.cons_append, List.nil_append] using ha
                  | some d2 =>
                    cases ht2 : d2.truthy with
                    | false =>
                      refine hmem [] (by simp) ?_
                      simpa only [ensure_server, hc, htr, hveq, hp2, hpz,
                        hk, hh, ht2, ne_eq, not_false_eq_true, if_true,
                        Bool.false_eq_true, if_false, List.cons_append,
                        List.nil_append] using ha
                    | true =>
                      cases hk2 : env.killOk oldPid Sig.SIGKILL with
                      | true =>
                        refine hmem [Act.kill oldPid Sig.SIGKILL,
                          Act.sleep 500] (by
                            intro b hb
                            simp at hb
                            tauto) ?_
                        simpa only [ensure_server, hc, htr, hveq, hp2,
                          hpz, hk, hh, ht2, hk2, ne_eq, not_false_eq_true,
                          if_true, List.cons_append,
                          List.nil_append] using ha
                      | false =>
                        refine hmem [Act.kill oldPid Sig.SIGKILL] (by
                            intro b hb
                            simp at hb
                            tauto) ?_
                        simpa only [ensure_server, hc, htr, hveq, hp2,
                          hpz, hk, hh, ht2, hk2, ne_eq, not_false_eq_true,
                          if_true, Bool.false_eq_true, if_false,
                          List.cons_append, List.nil_append] using ha

/-- Claim C10: the launch command is exactly
`[sys.executable, "-m", "buckaroo.server"]`, with no `--port` and no
`--no-browser` flag (assuming only that the interpreter path is not itself
one of those literal flags), and it is independent of the configured port:
whatever the port, every `Popen` in an `ensure_server` trace carries that
same fixed command.  Meanwhile every health probe in the trace targets the
health URL derived from the configured port, the `/load` request URL is
derived from the same port, and the port itself is read from
`BUCKAROO_PORT` with default 8700. -/
theorem c10_launch_command_port_independent (exe : String) (port : Nat)
    (diag : Diag) (expected payload : String) (env : Env)
    (hx1 : exe ≠ "--port") (hx2 : exe ≠ "--no-browser") :
    "--port" ∉ launchCmd exe ∧
    "--no-browser" ∉ launchCmd exe ∧
    launchCmd exe = [exe, "-m", "buckaroo.server"] ∧
    (∀ c, Act.popen c ∈ (ensure_server ⟨exe, port⟩ diag expected env).2 →
      c = launchCmd exe) ∧
    (∀ u, Act.probe u ∈ (ensure_server ⟨exe, port⟩ diag expected env).2 →
      u = healthURL port) ∧
    SERVER_PORT none = some 8700 ∧
    (load_request port payload).url =
      "http://localhost:" ++ toString port ++ "/load" := by
  refine ⟨?_, ?_, rfl, ?_, ?_, by decide, rfl⟩
  · intro hmem
    rcases List.mem_cons.mp hmem with h | h2
    · exact hx1 h.symm
    · rcases List.mem_cons.mp h2 with h | h3
      · exact absurd h (by decide)
      · rcases List.mem_cons.mp h3 with h | h4
        · exact absurd h (by decide)
        · exact absurd h4 (by decide)
  · intro hmem
    rcases List.mem_cons.mp hmem with h | h2
    · exact hx2 h.symm
    · rcases List.mem_cons.mp h2 with h | h3
      · exact absurd h (by decide)
      · rcases List.mem_cons.mp h3 with h | h4
        · exact absurd h (by decide)
        · exact absurd h4 (by decide)
  · intro c hc
    rcases ensure_server_acts ⟨exe, port⟩ diag expected env _ hc with
      h | ⟨p, s, h⟩ | ⟨ms, h⟩ | h | h
    · exact Act.noConfusion h
    · exact Act.noConfusion h
    · exact Act.noConfusion h
    · exact Act.popen.inj h
    · exact Act.noConfusion h
  · intro u hu
    rcases ensure_server_acts ⟨exe, port⟩ diag expected env _ hu with
      h | ⟨p, s, h⟩ | ⟨ms, h⟩ | h | h
    · exact Act.probe.inj h
    · exact Act.noConfusion h
    · exact Act.noConfusion h
    · exact Act.noConfusion h
    · exact Act.noConfusion h

/-- Claim C10, witness: the theorem at a concrete interpreter path and the
default port. -/
theorem c10_launch_command_port_independent_witness :
    "--port" ∉ launchCmd "py" ∧
    launchCmd "py" = ["py", "-m", "buckaroo.server"] ∧
    SERVER_PORT none = some 8700 := by
  have h := c10_launch_command_port_independent "py" 8700 diagEx "1.2.0"
    "payload" envAbsent (by decide) (by decide)
  exact ⟨h.1, h.2.2.1, h.2.2.2.2.2.1⟩

end BuckarooMCP
